import Mathlib

/-!
Shallow embedding of `src/MineGraph.py` (the MineGraph pipeline driver).

The script has two parts:
  * `run_workflow` (lines 50-147): resolves the list of FASTA files (from an
    optional manifest or by listing the data directory), then invokes five
    external containerized stages in a fixed order with `subprocess.run(...,
    check=True)`, which raises on a non-zero exit status and so terminates the
    driver with a non-zero exit.
  * the `__main__` block (lines 150-173): an argparse front end that collects
    the flags and calls `run_workflow`, dividing the integer `--quantile`
    percent by 100.

The embedding models the filesystem, the spreadsheet parsers and the external
processes as an environment `Env` of oracles, and `run_workflow` as a pure
function from the environment and configuration to the trace of user-visible
events together with the termination status of the driver.
-/

namespace MineGraph

/-- A parsed pandas data frame, reduced to what the driver reads from it:
the header (column names, `df.shape[1] = columns.length`) and the data rows
(`df.iloc[:, 0]` reads the first cell of each row). -/
structure DataFrame where
  columns : List String
  rows : List (List String)
deriving DecidableEq, Repr

/-- df.shape[1]: the number of columns. -/
def DataFrame.ncols (df : DataFrame) : Nat := df.columns.length

/-- df.iloc[:, 0].tolist(): the values of the first column, in row order. -/
def DataFrame.col0 (df : DataFrame) : List String :=
  df.rows.map (fun r => r.headD "")

/-- The Python method str.endswith, on the character sequences of the strings. -/
def strEndsWith (s tail : String) : Bool := tail.data.isSuffixOf s.data

deriving instance DecidableEq for Except

/-- Models pandas `pd.read_csv` with its default `header=0` on the raw cell
rows of a CSV file: the first row is consumed as the column names and the
remaining rows become the data. An empty file raises (pandas EmptyDataError),
modelled as `none`. -/
def read_csv_rows (cells : List (List String)) : Option DataFrame :=
  match cells with
  | [] => none
  | header :: rest => some ⟨header, rest⟩

/-- The five external stages, in source order (steps 1-5 of `run_workflow`). -/
inductive Stage
  | prepare
  | mask
  | extract
  | align
  | stats
deriving DecidableEq, Repr

/-- Position of a stage in the pipeline (stage 1 through 5). -/
def Stage.idx : Stage → Nat
  | .prepare => 1
  | .mask => 2
  | .extract => 3
  | .align => 4
  | .stats => 5

/-- The stages in the order the driver runs them. -/
def stageOrder : List Stage := [.prepare, .mask, .extract, .align, .stats]

/-- The named flags passed to stage 5 (`run_stats.py`, lines 130-143). -/
structure StatsArgs where
  threads : Int
  tree_pars : Int
  tree_bs : Int
  input_dir : String
  output_dir : String
  quantile : Rat
  top_n : Int
deriving DecidableEq, Repr

/-- One external process invocation, with the varying parts of its command
line (the fixed docker boilerplate and image names are constant in the
source and omitted; `files` is the positional filename list appended to the
stage 1 command, line 97). -/
inductive Invocation
  | prepare (data_dir : String) (output_dir : String) (files : List String)
  | mask (output_dir : String) (threads : Int)
  | extract (output_dir : String)
  | align (output_dir : String) (threads : Int)
  | stats (a : StatsArgs)
deriving DecidableEq, Repr

/-- The stage an invocation belongs to. -/
def Invocation.stage : Invocation → Stage
  | .prepare _ _ _ => .prepare
  | .mask _ _ => .mask
  | .extract _ => .extract
  | .align _ _ => .align
  | .stats _ => .stats

/-- The user-visible events of a run: the `os.makedirs(output_dir,
exist_ok=True)` call (line 69), each `subprocess.run` of a stage, and the
final success banner (line 147). -/
inductive Event
  | mkdirOutput
  | invoke (i : Invocation)
  | banner
deriving DecidableEq, Repr

/-- The environment the driver runs in: `os.path.abspath`, the
`os.listdir(data_dir)` result, the data frames the pandas readers return for
a given manifest path, and the exit status of the external process of
each stage. -/
structure Env where
  abspath : String → String
  listdir : List String
  readCsv : String → DataFrame
  readExcel : String → DataFrame
  exitCode : Stage → Nat

/-- The parameters of `run_workflow` (line 50), with the Python default
values. `quantile` is a rational: the caller passes `args.quantile / 100`
(Python true division). -/
structure Config where
  data_dir : String
  output_dir : String
  metadata : Option String
  threads : Int := 16
  tree_pars : Int := 10
  tree_bs : Int := 10
  quantile : Rat := 0.25
  top_n : Int := 50

/-- Lines 72-90 of `run_workflow`: resolve the FASTA file list. The Python
test `if metadata:` is falsy both for `None` and for the empty string, so
`some ""` falls through to the directory listing. A manifest path ending in
`.csv` or `.xlsx` is parsed; any other non-empty path prints an error and
calls `sys.exit(1)`; a parsed frame with a column count other than 1 also
exits 1; otherwise the values of the first column are the file list. With no
(or an empty) manifest the list is every file of the data directory whose
name ends in `.fasta`. `Except.error c` models `sys.exit(c)`. -/
def resolveFiles (env : Env) (cfg : Config) : Except Nat (List String) :=
  match cfg.metadata with
  | some m =>
    if m = "" then
      .ok (env.listdir.filter (fun f => strEndsWith f ".fasta"))
    else if strEndsWith m ".csv" then
      let df := env.readCsv m
      if df.ncols ≠ 1 then .error 1 else .ok df.col0
    else if strEndsWith m ".xlsx" then
      let df := env.readExcel m
      if df.ncols ≠ 1 then .error 1 else .ok df.col0
    else
      .error 1
  | none => .ok (env.listdir.filter (fun f => strEndsWith f ".fasta"))

/-- Lines 69-147 of `run_workflow`: the whole driver, as the trace of events
it produces and its termination status (`none` = normal return, exit 0;
`some c` = termination with exit status `c`, either `sys.exit(1)` during file
resolution or the uncaught `subprocess.CalledProcessError` a failing stage
raises, which makes the interpreter exit 1). Each stage is invoked by
`subprocess.run(..., check=True)` and the next stage starts only when the
previous one exited 0. -/
def run_workflow (env : Env) (cfg : Config) : List Event × Option Nat :=
  match resolveFiles env cfg with
  | .error c => ([Event.mkdirOutput], some c)
  | .ok fasta_files =>
    let inv1 := Invocation.prepare (env.abspath cfg.data_dir)
      (env.abspath cfg.output_dir) fasta_files
    let inv2 := Invocation.mask (env.abspath cfg.output_dir) cfg.threads
    let inv3 := Invocation.extract (env.abspath cfg.output_dir)
    let inv4 := Invocation.align (env.abspath cfg.output_dir) cfg.threads
    let inv5 := Invocation.stats
      { threads := cfg.threads
        tree_pars := cfg.tree_pars
        tree_bs := cfg.tree_bs
        input_dir := "/data/pggb_output"
        output_dir := "/data/MineGraph_output"
        quantile := cfg.quantile
        top_n := cfg.top_n }
    if env.exitCode Stage.prepare ≠ 0 then
      ([Event.mkdirOutput, Event.invoke inv1], some 1)
    else if env.exitCode Stage.mask ≠ 0 then
      ([Event.mkdirOutput, Event.invoke inv1, Event.invoke inv2], some 1)
    else if env.exitCode Stage.extract ≠ 0 then
      ([Event.mkdirOutput, Event.invoke inv1, Event.invoke inv2,
        Event.invoke inv3], some 1)
    else if env.exitCode Stage.align ≠ 0 then
      ([Event.mkdirOutput, Event.invoke inv1, Event.invoke inv2,
        Event.invoke inv3, Event.invoke inv4], some 1)
    else if env.exitCode Stage.stats ≠ 0 then
      ([Event.mkdirOutput, Event.invoke inv1, Event.invoke inv2,
        Event.invoke inv3, Event.invoke inv4, Event.invoke inv5], some 1)
    else
      ([Event.mkdirOutput, Event.invoke inv1, Event.invoke inv2,
        Event.invoke inv3, Event.invoke inv4, Event.invoke inv5,
        Event.banner], none)

/-- The stages invoked along a trace, in order. -/
def invokedStages (tr : List Event) : List Stage :=
  tr.filterMap (fun e => match e with
    | .invoke i => some i.stage
    | _ => none)

/-- The command line as argparse sees it: `none` for a flag the user omitted,
`some v` for a supplied (already type-converted) value. -/
structure CmdLine where
  data_dir : Option String := none
  output_dir : Option String := none
  metadata : Option String := none
  threads : Option Int := none
  tree_pars : Option Int := none
  tree_bs : Option Int := none
  quantile : Option Int := none
  top_n : Option Int := none

/-- The `args` namespace after a successful parse. -/
structure ParsedArgs where
  data_dir : String
  output_dir : String
  metadata : String
  threads : Int
  tree_pars : Int
  tree_bs : Int
  quantile : Int
  top_n : Int
deriving DecidableEq, Repr

/-- Lines 151-162: the argparse surface. `--data_dir`, `--output_dir` and
`--metadata` are all declared `required=True`, so omitting any of them makes
argparse error out (argparse exits with status 2 on a missing required
argument). The remaining flags default to 16, 10, 10, 25 and 50 (the
`--top_n` default is the string "50", which argparse converts with
`type=int` to 50). -/
def parse_args (c : CmdLine) : Except Nat ParsedArgs :=
  match c.data_dir, c.output_dir, c.metadata with
  | some dd, some od, some md =>
    .ok { data_dir := dd
          output_dir := od
          metadata := md
          threads := c.threads.getD 16
          tree_pars := c.tree_pars.getD 10
          tree_bs := c.tree_bs.getD 10
          quantile := c.quantile.getD 25
          top_n := c.top_n.getD 50 }
  | _, _, _ => .error 2

/-- Lines 164-173: the `run_workflow(...)` call of the `__main__` block,
as the `Config` it passes. `quantile` is `args.quantile / 100` (Python true
division of the integer percent, modelled as rational division). -/
def main_config (c : CmdLine) : Except Nat Config :=
  (parse_args c).map (fun a =>
    { data_dir := a.data_dir
      output_dir := a.output_dir
      metadata := some a.metadata
      threads := a.threads
      tree_pars := a.tree_pars
      tree_bs := a.tree_bs
      quantile := (a.quantile : Rat) / 100
      top_n := a.top_n })

/-!
Structural lemmas about the driver, shared by the claim theorems below.
-/

/-- The number of stages the driver invokes: none when file resolution exits,
otherwise every stage up to and including the first one whose process fails
(all five when none fails). -/
def numInvoked (env : Env) (cfg : Config) : Nat :=
  match resolveFiles env cfg with
  | .error _ => 0
  | .ok _ =>
    if env.exitCode Stage.prepare ≠ 0 then 1
    else if env.exitCode Stage.mask ≠ 0 then 2
    else if env.exitCode Stage.extract ≠ 0 then 3
    else if env.exitCode Stage.align ≠ 0 then 4
    else 5

/-- File resolution only ever exits with status 1 (both `sys.exit(1)` calls,
lines 80 and 84). -/
theorem resolveFiles_error_code (env : Env) (cfg : Config) (c : Nat)
    (h : resolveFiles env cfg = .error c) : c = 1 := by
  unfold resolveFiles at h
  rcases hm : cfg.metadata with _ | m <;> rw [hm] at h <;> simp only at h
  · exact absurd h (by simp)
  · split_ifs at h <;> simp_all

/-- The stages a run invokes are exactly the first `numInvoked` elements of
the pipeline order. -/
theorem invokedStages_eq (env : Env) (cfg : Config) :
    invokedStages (run_workflow env cfg).1 =
      stageOrder.take (numInvoked env cfg) := by
  unfold run_workflow numInvoked
  rcases resolveFiles env cfg with c | fs
  · simp [invokedStages]
  · by_cases h1 : env.exitCode Stage.prepare = 0 <;>
    by_cases h2 : env.exitCode Stage.mask = 0 <;>
    by_cases h3 : env.exitCode Stage.extract = 0 <;>
    by_cases h4 : env.exitCode Stage.align = 0 <;>
    by_cases h5 : env.exitCode Stage.stats = 0 <;>
    simp [h1, h2, h3, h4, h5, invokedStages, Invocation.stage, stageOrder]

/-- When the process of any stage exits non-zero the driver terminates with
exit status 1 (the uncaught CalledProcessError). -/
theorem run_workflow_stage_fail (env : Env) (cfg : Config) (s : Stage)
    (h : env.exitCode s ≠ 0) : (run_workflow env cfg).2 = some 1 := by
  unfold run_workflow
  rcases hres : resolveFiles env cfg with c | fs
  · simp [resolveFiles_error_code env cfg c hres]
  · split_ifs with h1 h2 h3 h4 h5
    · rfl
    · rfl
    · rfl
    · rfl
    · rfl
    · exact absurd (by cases s <;> simp_all : env.exitCode s = 0) h

/-- A run that terminates normally resolved its file list and saw every
stage exit 0. -/
theorem run_workflow_success_parts (env : Env) (cfg : Config)
    (h : (run_workflow env cfg).2 = none) :
    (∃ fs, resolveFiles env cfg = .ok fs) ∧ ∀ s, env.exitCode s = 0 := by
  have hz : ∀ s, env.exitCode s = 0 := by
    intro s
    by_contra hs
    rw [run_workflow_stage_fail env cfg s hs] at h
    exact Option.noConfusion h
  refine ⟨?_, hz⟩
  unfold run_workflow at h
  rcases hres : resolveFiles env cfg with c | fs
  · rw [hres] at h
    simp at h
  · exact ⟨fs, rfl⟩

/-- The success banner appears in the trace exactly when the driver
terminates normally. -/
theorem banner_mem_iff (env : Env) (cfg : Config) :
    Event.banner ∈ (run_workflow env cfg).1 ↔
      (run_workflow env cfg).2 = none := by
  unfold run_workflow
  rcases resolveFiles env cfg with c | fs
  · simp
  · split_ifs <;> simp

/-- A run never proceeds past a stage whose process fails. -/
theorem numInvoked_le_idx (env : Env) (cfg : Config) (s : Stage)
    (h : env.exitCode s ≠ 0) : numInvoked env cfg ≤ s.idx := by
  unfold numInvoked
  rcases resolveFiles env cfg with c | fs
  · exact Nat.zero_le _
  · split_ifs with h1 h2 h3 h4 <;> cases s <;> simp_all [Stage.idx]

/-- A fully successful run invokes all five stages. -/
theorem numInvoked_five (env : Env) (cfg : Config) (fs : List String)
    (hres : resolveFiles env cfg = .ok fs) (hz : ∀ s, env.exitCode s = 0) :
    numInvoked env cfg = 5 := by
  unfold numInvoked
  rw [hres]
  simp [hz]

/-- Membership in an initial segment of the pipeline order is exactly the
index bound. -/
theorem mem_take_stageOrder (t : Stage) (k : Nat) :
    t ∈ stageOrder.take k ↔ t.idx ≤ k := by
  rcases Nat.lt_or_ge k 5 with h | h
  · interval_cases k <;> cases t <;> decide
  · rw [List.take_of_length_le (by simp [stageOrder]; omega)]
    cases t <;> simp [stageOrder, Stage.idx] <;> omega

/-- No stage occurs twice in an initial segment of the pipeline order. -/
theorem count_take_stageOrder (t : Stage) (k : Nat) :
    (stageOrder.take k).count t ≤ 1 := by
  have hnd : (stageOrder.take k).Nodup :=
    (List.take_sublist k stageOrder).nodup (by decide)
  exact List.nodup_iff_count_le_one.mp hnd t

/-- Reading the first cell of each singleton row recovers the row values. -/
theorem map_headD_singleton (l : List String) :
    List.map (fun r => List.headD r "") (List.map (fun n => [n]) l) = l := by
  induction l with
  | nil => rfl
  | cons x xs ih => simpa using ih

/-- Any stage 5 invocation of a run carries the quantile of the
configuration as its --quantile flag value (line 140). -/
theorem stats_invocation_quantile (env : Env) (cfg : Config) (a : StatsArgs)
    (h : Event.invoke (Invocation.stats a) ∈ (run_workflow env cfg).1) :
    a.quantile = cfg.quantile := by
  unfold run_workflow at h
  rcases hres : resolveFiles env cfg with c | fs <;> rw [hres] at h
  · simp at h
  · simp only at h
    split_ifs at h <;> simp at h <;> simp [h]

/-!
Concrete inputs used by the witness theorems.
-/

/-- A concrete environment: a data directory with two FASTA files and one
other file, a CSV reader returning one header column `fasta_files` with two
filenames, and every external stage succeeding. -/
def envA : Env :=
  { abspath := fun p => p
    listdir := ["a.fasta", "notes.txt", "b.fasta"]
    readCsv := fun _ => ⟨["fasta_files"], [["a.fasta"], ["b.fasta"]]⟩
    readExcel := fun _ => ⟨["fasta_files"], [["a.fasta"]]⟩
    exitCode := fun _ => 0 }

/-- Like `envA` but the stage 3 process exits with status 7. -/
def envFail : Env :=
  { envA with exitCode := fun s => if s = Stage.extract then 7 else 0 }

/-- Like `envA` but the CSV reader returns the parse of a headerless
single-column manifest listing a.fasta, b.fasta, c.fasta: pandas consumed
the first filename as the column header. -/
def envB : Env :=
  { envA with readCsv := fun _ => ⟨["a.fasta"], [["b.fasta"], ["c.fasta"]]⟩ }

/-- A configuration with a CSV manifest. -/
def cfgCsv : Config :=
  { data_dir := "/d", output_dir := "/o", metadata := some "list.csv" }

/-- A configuration whose manifest path has an unsupported extension. -/
def cfgTxt : Config :=
  { data_dir := "/d", output_dir := "/o", metadata := some "list.txt" }

/-- A command line passing --quantile 25 plus the required arguments. -/
def cl25 : CmdLine :=
  { data_dir := some "/d", output_dir := some "/o",
    metadata := some "list.csv", quantile := some 25 }

/-- The configuration the main block builds from `cl25`. -/
def cfg25 : Config :=
  { data_dir := "/d", output_dir := "/o", metadata := some "list.csv",
    quantile := ((25 : Int) : Rat) / 100 }

/-!
The claim theorems.
-/

/-- C1: the claim says the --metadata manifest argument is optional on the
command-line surface and that a run without it resolves the *.fasta files of
the data directory. The code contradicts its own help text and docstring:
argparse declares --metadata with required=True (line 154), so a command
line with only the required --data_dir and --output_dir is rejected
(argparse exits with status 2) and `run_workflow` is never reached, even
though `run_workflow` itself (second conjunct) would resolve exactly the
files of the data directory whose name ends in .fasta when no manifest is
given. -/
theorem c1_metadata_required_on_cli (dd od : String) :
    parse_args { data_dir := some dd, output_dir := some od } = .error 2 ∧
    ∀ env : Env,
      resolveFiles env { data_dir := dd, output_dir := od, metadata := none } =
        .ok (env.listdir.filter (fun f => strEndsWith f ".fasta")) :=
  ⟨rfl, fun _ => rfl⟩

/-- C2: for every stage whose external process exits non-zero, no later
stage is invoked, no stage is invoked more than once, and the driver
terminates with the non-zero exit status 1. -/
theorem c2_stage_failure_fail_fast (env : Env) (cfg : Config) (s : Stage)
    (h : env.exitCode s ≠ 0) :
    (∀ t : Stage, s.idx < t.idx → t ∉ invokedStages (run_workflow env cfg).1) ∧
    (∀ t : Stage, (invokedStages (run_workflow env cfg).1).count t ≤ 1) ∧
    (run_workflow env cfg).2 = some 1 := by
  refine ⟨?_, ?_, run_workflow_stage_fail env cfg s h⟩
  · intro t ht hmem
    rw [invokedStages_eq] at hmem
    have h1 := (mem_take_stageOrder t _).mp hmem
    have h2 := numInvoked_le_idx env cfg s h
    omega
  · intro t
    rw [invokedStages_eq]
    exact count_take_stageOrder t _

/-- Witness for C2: in the concrete run `envFail`/`cfgCsv` where the stage 3
process exits 7, stages 4 and 5 are not invoked, no stage runs twice, and
the driver exits 1. -/
theorem c2_witness :
    (∀ t : Stage, Stage.extract.idx < t.idx →
      t ∉ invokedStages (run_workflow envFail cfgCsv).1) ∧
    (∀ t : Stage, (invokedStages (run_workflow envFail cfgCsv).1).count t ≤ 1) ∧
    (run_workflow envFail cfgCsv).2 = some 1 :=
  c2_stage_failure_fail_fast envFail cfgCsv Stage.extract (by decide)

/-- C3: for every manifest (CSV or spreadsheet, dispatched on the path
extension exactly as lines 74-77 do) whose parsed frame has exactly one
column, the resolved file list is that column, and stage 1 is invoked with
exactly those names, in file order, as its positional arguments. -/
theorem c3_manifest_single_column (env : Env) (cfg : Config) (m : String)
    (df : DataFrame) (hm : cfg.metadata = some m) (hne : m ≠ "")
    (hdf : (strEndsWith m ".csv" = true ∧ env.readCsv m = df) ∨
           (strEndsWith m ".csv" = false ∧ strEndsWith m ".xlsx" = true ∧
             env.readExcel m = df))
    (hcol : df.ncols = 1) :
    resolveFiles env cfg = .ok df.col0 ∧
    Event.invoke (Invocation.prepare (env.abspath cfg.data_dir)
      (env.abspath cfg.output_dir) df.col0) ∈ (run_workflow env cfg).1 := by
  have hres : resolveFiles env cfg = .ok df.col0 := by
    unfold resolveFiles
    rw [hm]
    rcases hdf with ⟨hcsv, hr⟩ | ⟨hncsv, hx, hr⟩
    · simp [hne, hcsv, hr, hcol]
    · simp [hne, hncsv, hx, hr, hcol]
  refine ⟨hres, ?_⟩
  unfold run_workflow
  rw [hres]
  split_ifs <;> simp

/-- Witness for C3: the concrete single-column manifest list.csv of `envA`
resolves to its two filenames in order and stage 1 receives them. -/
theorem c3_witness :
    resolveFiles envA cfgCsv =
      .ok (DataFrame.col0 ⟨["fasta_files"], [["a.fasta"], ["b.fasta"]]⟩) ∧
    Event.invoke (Invocation.prepare (envA.abspath cfgCsv.data_dir)
      (envA.abspath cfgCsv.output_dir)
      (DataFrame.col0 ⟨["fasta_files"], [["a.fasta"], ["b.fasta"]]⟩))
      ∈ (run_workflow envA cfgCsv).1 :=
  c3_manifest_single_column envA cfgCsv "list.csv"
    ⟨["fasta_files"], [["a.fasta"], ["b.fasta"]]⟩
    rfl (by decide) (Or.inl ⟨by decide, rfl⟩) rfl

/-- C4: for every supplied (non-empty) manifest path with an unsupported
extension, or one whose parsed frame has a column count other than one, the
driver exits with status 1 and no external stage is invoked. -/
theorem c4_bad_manifest_aborts (env : Env) (cfg : Config) (m : String)
    (hm : cfg.metadata = some m) (hne : m ≠ "")
    (hbad : (strEndsWith m ".csv" = false ∧ strEndsWith m ".xlsx" = false) ∨
            (strEndsWith m ".csv" = true ∧ (env.readCsv m).ncols ≠ 1) ∨
            (strEndsWith m ".csv" = false ∧ strEndsWith m ".xlsx" = true ∧
              (env.readExcel m).ncols ≠ 1)) :
    (run_workflow env cfg).2 = some 1 ∧
    invokedStages (run_workflow env cfg).1 = [] := by
  have hres : resolveFiles env cfg = .error 1 := by
    unfold resolveFiles
    rw [hm]
    rcases hbad with ⟨h1, h2⟩ | ⟨h1, h2⟩ | ⟨h1, h2, h3⟩
    · simp [hne, h1, h2]
    · simp [hne, h1, h2]
    · simp [hne, h1, h2, h3]
  unfold run_workflow
  rw [hres]
  exact ⟨rfl, rfl⟩

/-- Witness for C4: the manifest path list.txt makes the concrete run exit 1
with no stage invoked. -/
theorem c4_witness :
    (run_workflow envA cfgTxt).2 = some 1 ∧
    invokedStages (run_workflow envA cfgTxt).1 = [] :=
  c4_bad_manifest_aborts envA cfgTxt "list.txt" rfl (by decide)
    (Or.inl ⟨by decide, by decide⟩)

/-- C5: in every run the invoked stages form an initial segment of the fixed
order Prepare, Mask, Extract, Align, Stats (so the order is strictly linear
and no stage is revisited), each stage is invoked at most once, and the
success banner is printed only if all five stages were invoked and all their
processes exited 0. -/
theorem c5_strict_linear_order (env : Env) (cfg : Config) :
    (∃ k, invokedStages (run_workflow env cfg).1 = stageOrder.take k) ∧
    (∀ t : Stage, (invokedStages (run_workflow env cfg).1).count t ≤ 1) ∧
    (Event.banner ∈ (run_workflow env cfg).1 →
      invokedStages (run_workflow env cfg).1 = stageOrder ∧
      ∀ s, env.exitCode s = 0) := by
  refine ⟨⟨numInvoked env cfg, invokedStages_eq env cfg⟩, ?_, ?_⟩
  · intro t
    rw [invokedStages_eq]
    exact count_take_stageOrder t _
  · intro hb
    have hnone := (banner_mem_iff env cfg).mp hb
    obtain ⟨⟨fs, hres⟩, hz⟩ := run_workflow_success_parts env cfg hnone
    refine ⟨?_, hz⟩
    rw [invokedStages_eq, numInvoked_five env cfg fs hres hz]
    rfl

/-- C6: for every command line supplying an integer quantile percent q, the
configuration the main block builds carries q / 100, and every stage 5
invocation of a run under that configuration passes q / 100 as its
--quantile flag value. -/
theorem c6_quantile_divided_by_100 (c : CmdLine) (q : Int) (cfg : Config)
    (hq : c.quantile = some q) (hok : main_config c = .ok cfg) :
    cfg.quantile = (q : Rat) / 100 ∧
    ∀ (env : Env) (a : StatsArgs),
      Event.invoke (Invocation.stats a) ∈ (run_workflow env cfg).1 →
      a.quantile = (q : Rat) / 100 := by
  have hval : cfg.quantile = (q : Rat) / 100 := by
    unfold main_config parse_args at hok
    rcases hdd : c.data_dir with _ | dd <;> rw [hdd] at hok <;>
      rcases hod : c.output_dir with _ | od <;> rw [hod] at hok <;>
      rcases hmd : c.metadata with _ | md <;> rw [hmd] at hok <;>
      simp [Except.map] at hok
    rw [← hok, hq]
    rfl
  exact ⟨hval, fun env a h => (stats_invocation_quantile env cfg a h).trans hval⟩

/-- Witness for C6: the flag value 25 becomes 25 / 100, and 25 / 100 is
exactly 0.25. -/
theorem c6_witness :
    (cfg25.quantile = ((25 : Int) : Rat) / 100 ∧
      ∀ (env : Env) (a : StatsArgs),
        Event.invoke (Invocation.stats a) ∈ (run_workflow env cfg25).1 →
        a.quantile = ((25 : Int) : Rat) / 100) ∧
    ((25 : Int) : Rat) / 100 = 0.25 :=
  ⟨c6_quantile_divided_by_100 cl25 25 cfg25 rfl rfl, by norm_num⟩

/-- C7: in every run the output directory is created (os.makedirs with
exist_ok=True, line 69) strictly before any stage invocation: the trace
begins with the mkdir event. -/
theorem c7_mkdir_before_stages (env : Env) (cfg : Config) :
    ∃ rest, (run_workflow env cfg).1 = Event.mkdirOutput :: rest := by
  unfold run_workflow
  rcases resolveFiles env cfg with c | fs
  · exact ⟨_, rfl⟩
  · split_ifs <;> exact ⟨_, rfl⟩

/-- C8: with all optional flags omitted, the configuration built by the main
block has threads 16, tree_pars 10, tree_bs 10, quantile 0.25 (the default
25 percent divided by 100) and top_n 50. -/
theorem c8_flag_defaults (dd od md : String) :
    main_config { data_dir := some dd, output_dir := some od,
                  metadata := some md } =
      .ok { data_dir := dd, output_dir := od, metadata := some md,
            threads := 16, tree_pars := 10, tree_bs := 10,
            quantile := 0.25, top_n := 50 } := by
  unfold main_config parse_args
  simp [Except.map, Config.mk.injEq]
  norm_num

/-- C9: a CSV manifest is read with the pandas default header row, so a
headerless single-column manifest listing N filenames resolves to only the
last N - 1 of them: the first filename is consumed as the column header. -/
theorem c9_csv_header_row_consumed (env : Env) (cfg : Config) (m : String)
    (names : List String) (hne : names ≠ [])
    (hm : cfg.metadata = some m) (hms : m ≠ "")
    (hcsv : strEndsWith m ".csv" = true)
    (hread : some (env.readCsv m) = read_csv_rows (names.map (fun n => [n]))) :
    resolveFiles env cfg = .ok names.tail ∧
    names.tail.length = names.length - 1 := by
  rcases names with _ | ⟨n0, rest⟩
  · exact absurd rfl hne
  · simp only [read_csv_rows, List.map, Option.some.injEq] at hread
    constructor
    · have hc : (DataFrame.mk [n0] (rest.map (fun n => [n]))).col0 = rest :=
        map_headD_singleton rest
      unfold resolveFiles
      rw [hm]
      simp [hms, hcsv, hread, DataFrame.ncols, hc]
    · simp

/-- Witness for C9: a headerless manifest listing three filenames resolves
to only the last two. -/
theorem c9_witness :
    resolveFiles envB cfgCsv = .ok ["b.fasta", "c.fasta"] ∧
    (["a.fasta", "b.fasta", "c.fasta"] : List String).tail.length =
      (["a.fasta", "b.fasta", "c.fasta"] : List String).length - 1 :=
  c9_csv_header_row_consumed envB cfgCsv "list.csv"
    ["a.fasta", "b.fasta", "c.fasta"] (by decide) rfl (by decide) (by decide)
    rfl

/-- C10: a metadata path equal to the empty string is falsy in the Python
test `if metadata:`, so the driver falls back to listing the .fasta files of
the data directory, exactly as with no manifest, instead of hitting the
unsupported-format exit. -/
theorem c10_empty_string_metadata (env : Env) (dd od : String) :
    resolveFiles env { data_dir := dd, output_dir := od, metadata := some "" } =
      .ok (env.listdir.filter (fun f => strEndsWith f ".fasta")) ∧
    resolveFiles env { data_dir := dd, output_dir := od, metadata := some "" } =
      resolveFiles env { data_dir := dd, output_dir := od, metadata := none } := by
  constructor <;> rfl

end MineGraph
